import Mathlib

/-!
Verification of the conversation-state checkpointing, merge, and recovery
engine of the agentflow-cli repository.

The development embeds two generations of the checkpointer service that the
repository contains:

* `SrcApp` — the service at `src/app/routers/checkpointer/services/
  checkpointer_service.py`, embedded directly from that source file.
* `AgentflowCli` — the checkpointer service and the graph recovery (fix)
  operation exercised by the unit tests
  `tests/unit_tests/test_checkpointer_service.py` and
  `tests/unit_tests/test_fix_graph.py`.  Their implementation modules
  (`agentflow_cli/.../services/checkpointer_service.py` and
  `agentflow_cli/.../services/graph_service.py`) are absent from this source
  snapshot, so those definitions are modelled from the specification and
  cross-checked against the behavior the unit tests pin down.
-/

set_option autoImplicit false

mutual
/-- A JSON-like value, the shallow embedding of the Python values that flow
through configuration maps, agent states and merge updates.  Mappings are
association lists whose lookup takes the first matching key, mirroring the
unique-key property of Python dicts.  The three types are mutually inductive
so that all functions over them are structurally recursive. -/
inductive Val where
  | vNull : Val
  | vBool : Bool → Val
  | vNat : Nat → Val
  | vStr : String → Val
  | vList : ValList → Val
  | vObj : Fields → Val
  deriving DecidableEq
inductive ValList where
  | nil : ValList
  | cons : Val → ValList → ValList
  deriving DecidableEq
inductive Fields where
  | nil : Fields
  | cons : String → Val → Fields → Fields
  deriving DecidableEq
end

/-- List concatenation on embedded value lists (Python `old + new`). -/
def ValList.append : ValList → ValList → ValList
  | .nil, ys => ys
  | .cons x xs, ys => .cons x (xs.append ys)

/-- Association-list lookup: the value at the first occurrence of a key,
modelling Python `d[k]` / `d.get(k)` on a dict. -/
def dictGet : Fields → String → Option Val
  | .nil, _ => none
  | .cons k' v rest, k => if k' = k then some v else dictGet rest k

/-- Lookup with a default, modelling Python `d.get(k, default)`. -/
def dictGetD (d : Fields) (k : String) (v₀ : Val) : Val :=
  (dictGet d k).getD v₀

/-- Association-list update: replace the value at the first occurrence of a
key, or append the binding, modelling Python `d[k] = v` on a dict. -/
def dictSet : Fields → String → Val → Fields
  | .nil, k, v => .cons k v .nil
  | .cons k' v' rest, k, v =>
      if k' = k then .cons k v rest else .cons k' v' (dictSet rest k v)

/-- The keys of a mapping, in order. -/
def Fields.keys : Fields → List String
  | .nil => []
  | .cons k _ rest => k :: keys rest

/-- Spine induction for `Fields`, the list-shaped member of the mutual
family (the default recursor asks for motives of all three types). -/
def Fields.recSpine {motive : Fields → Prop} (h0 : motive .nil)
    (h1 : ∀ k v rest, motive rest → motive (.cons k v rest)) :
    ∀ f, motive f
  | .nil => h0
  | .cons k v rest => h1 k v rest (Fields.recSpine h0 h1 rest)

namespace AgentflowCli

mutual
/-- Modelled from the spec: one step of the generic recursive merge of the
Merge Engine (spec §4.1 step 5) applied to a single update entry `k := v`;
the implementing module
`agentflow_cli/src/app/routers/checkpointer/services/checkpointer_service.py`
(methods `_deep_merge_dicts` and helpers of `CheckpointerService`) is absent
from this source snapshot.  If both sides hold nested mappings, the merge
recurses; a field literally named `context` whose value is a list on both
sides is concatenated (`old + new`) — the behavior the repository's own unit
test `test_merge_states_context_append` pins down; otherwise the new value
wins outright. -/
def _deep_merge_entry : Fields → String → Val → Fields
  | base, k, Val.vObj uf =>
      (match dictGet base k with
       | some (Val.vObj bf) => dictSet base k (Val.vObj (_deep_merge_dicts bf uf))
       | _ => dictSet base k (Val.vObj uf))
  | base, k, Val.vList ys =>
      (match dictGet base k with
       | some (Val.vList xs) =>
           if k = "context" then dictSet base k (Val.vList (xs.append ys))
           else dictSet base k (Val.vList ys)
       | _ => dictSet base k (Val.vList ys))
  | base, k, v => dictSet base k v
/-- Modelled from the spec: the generic recursive merge over all entries of
`updates` (spec §4.1 step 5), folding `_deep_merge_entry` left-to-right over
the update mapping, whose keys are unique in Python. -/
def _deep_merge_dicts : Fields → Fields → Fields
  | base, .nil => base
  | base, .cons k v rest => _deep_merge_dicts (_deep_merge_entry base k v) rest
end

/-- Modelled from the spec: `CheckpointerService._merge_states` of the
absent agentflow-cli service module.  The previously-persisted state `old`
(its `model_dump()`, here the mapping itself) is deep-merged with the
caller-supplied `updates`, then `execution_meta` is overwritten with the
value held by `old`, so that no caller input can override it (spec §4.1
step 2; unit test `test_merge_states_basic`). -/
def _merge_states (old updates : Fields) : Fields :=
  dictSet (_deep_merge_dicts old updates) "execution_meta"
    (dictGetD old "execution_meta" Val.vNull)

/-- Modelled from the spec: `CheckpointerService._config` of the absent
agentflow-cli service module.  Before any persistence call the service
injects the authenticated `user` object and the derived `user_id`
(`user.get("user_id")`, null when absent) into the per-call configuration
map (spec §4.2 cross-cutting contract; unit test `test_config_validation`).
The not-configured guard is modelled separately, at the call sites. -/
def _config (config user : Fields) : Fields :=
  dictSet (dictSet config "user" (Val.vObj user)) "user_id"
    (dictGetD user "user_id" Val.vNull)

/-- The persistence interface's view of one thread: the primary state slot
and the secondary cache slot (spec §6: `get_state` / `get_state_cache` /
`put_state` / `clear_state`). -/
structure Persist where
  primary : Option Fields
  cache : Option Fields
  deriving DecidableEq

/-- The success/empty/error discriminated result carrying a state payload
(spec §6 response shapes). -/
structure StateResponse where
  success : Bool
  message : String
  state : Option Fields
  deriving DecidableEq

/-- A configuration map is tenant-scoped for `user` when it carries the
`user` object itself and a non-null derived `user_id` (spec §8 scoping
invariant). -/
def ScopedFor (user cfg : Fields) : Prop :=
  dictGet cfg "user" = some (Val.vObj user) ∧
    ∃ u, dictGet cfg "user_id" = some u ∧ u ≠ Val.vNull

/-- Modelled from the spec: `CheckpointerService.get_state` of the absent
agentflow-cli service module.  It scopes the configuration, reads the
primary state, falls back to the secondary cache read on a miss (unit test
`test_get_state_fallback_to_cache`), and reports an absent state as a
successful empty result.  Returns the configuration passed to the
persistence interface together with the response. -/
def get_state (p : Persist) (config user : Fields) : Fields × StateResponse :=
  let cfg := _config config user
  match p.primary with
  | some s => (cfg, ⟨true, "State retrieved successfully", some s⟩)
  | none =>
      match p.cache with
      | some s => (cfg, ⟨true, "State retrieved successfully", some s⟩)
      | none => (cfg, ⟨true, "No state found", none⟩)

/-- Modelled from the spec: `CheckpointerService.put_state` of the absent
agentflow-cli service module.  It scopes the configuration, reads the
currently persisted state (falling back to the secondary cache read when
the primary read misses), runs it and the candidate through the Merge
Engine — a first write persists the candidate as-is, which is
`merge(None, new) = new` — persists the result and returns it.  Returns the
configuration passed to the persistence interface, the persistence state
after the write, and the state returned to the caller. -/
def put_state (p : Persist) (config user candidate : Fields) :
    Fields × Persist × Fields :=
  let cfg := _config config user
  let old :=
    match p.primary with
    | some s => some s
    | none => p.cache
  match old with
  | none => (cfg, { p with primary := some candidate }, candidate)
  | some o =>
      let merged := _merge_states o candidate
      (cfg, { p with primary := some merged }, merged)

/-- Modelled from the spec: `CheckpointerService.clear_state` of the absent
agentflow-cli service module — scoped, idempotent deletion of the thread's
persisted state.  Returns the configuration passed to the persistence
interface and the persistence state after the delete. -/
def clear_state (p : Persist) (config user : Fields) : Fields × Persist :=
  (_config config user, { p with primary := none })

/-- Modelled from the spec: `CheckpointerService.put_messages` — scoped
append of messages with metadata, delegated to the persistence interface
(`aput_messages`), here an abstract collaborator function.  Returns the
configuration passed to it and the delegate's result. -/
def put_messages {α β : Type} (aput_messages : Fields → List α → Fields → β)
    (config user : Fields) (messages : List α) (metadata : Fields) :
    Fields × β :=
  let cfg := _config config user
  (cfg, aput_messages cfg messages metadata)

/-- Modelled from the spec: `CheckpointerService.get_message` — scoped point
read delegated to the persistence interface. -/
def get_message {β : Type} (aget_message : Fields → β)
    (config user : Fields) : Fields × β :=
  let cfg := _config config user
  (cfg, aget_message cfg)

/-- Modelled from the spec: `CheckpointerService.list_messages` — scoped
paginated list with optional substring search, delegated to the persistence
interface. -/
def list_messages {β : Type}
    (alist_messages : Fields → Option String → Option Nat → Option Nat → β)
    (config user : Fields) (search : Option String)
    (offset limit : Option Nat) : Fields × β :=
  let cfg := _config config user
  (cfg, alist_messages cfg search offset limit)

/-- Modelled from the spec: `CheckpointerService.delete_message` — scoped
point delete delegated to the persistence interface. -/
def delete_message {β : Type} (adelete_message : Fields → β)
    (config user : Fields) : Fields × β :=
  let cfg := _config config user
  (cfg, adelete_message cfg)

/-- Modelled from the spec: `CheckpointerService.get_thread` — scoped
thread-metadata read delegated to the persistence interface. -/
def get_thread {β : Type} (aget_thread : Fields → β)
    (config user : Fields) : Fields × β :=
  let cfg := _config config user
  (cfg, aget_thread cfg)

/-- Modelled from the spec: `CheckpointerService.list_threads` — scoped
paginated thread listing.  The unit test `test_list_threads_success` calls
it with the user map alone, so the configuration is built from an empty
per-call map. -/
def list_threads {β : Type}
    (alist_threads : Fields → Option String → Option Nat → Option Nat → β)
    (user : Fields) (search : Option String)
    (offset limit : Option Nat) : Fields × β :=
  let cfg := _config Fields.nil user
  (cfg, alist_threads cfg search offset limit)

/-- Modelled from the spec: `CheckpointerService.delete_thread` — scoped
deletion of a thread's state and message history (`aclean_thread`); the
configuration carries the target `thread_id` (spec §6 configuration map
shape). -/
def delete_thread {β : Type} (aclean_thread : Fields → β)
    (config user : Fields) (thread_id : String) : Fields × β :=
  let cfg := _config (dictSet config "thread_id" (Val.vStr thread_id)) user
  (cfg, aclean_thread cfg)

namespace GraphService

/-- One tool-invocation record of a message; `content` holds the tool's
result, `none` embedding Python `None` (unit test
`test_fix_graph_handles_mixed_empty_content`). -/
structure ToolCall where
  name : String
  content : Option String
  deriving DecidableEq

/-- One conversational turn as the recovery operation sees it.  The
tool-call list attribute is spelled `tools_calls`, the attribute name the
repository's unit tests mock on `agentflow.state.Message`. -/
structure Message where
  message_id : String
  role : String
  tools_calls : Option (List ToolCall)
  deriving DecidableEq

/-- The slice of `AgentState` the recovery operation manipulates: the
ordered message history of the thread. -/
structure AgentState where
  context : List Message
  deriving DecidableEq

/-- A message is corrupt iff it has a non-empty tool-call list and at least
one entry's `content` is the empty string or null (spec §4.3 step 3). -/
def has_empty_tool_call (m : Message) : Bool :=
  match m.tools_calls with
  | none => false
  | some tcs => tcs.any fun tc => tc.content == none || tc.content == some ""

/-- The outcome payload of the recovery operation (unit tests in
`test_fix_graph.py`: `success`, `message`, `removed_count`). -/
structure FixResult where
  success : Bool
  message : String
  removed_count : Nat
  deriving DecidableEq

/-- Modelled from the spec: `GraphService.fix_graph` of the absent module
`agentflow_cli/src/app/routers/graph/services/graph_service.py` (spec §4.3;
called by the `/v1/graph/fix` route in
`agentflow_cli/src/app/routers/graph/router.py`).  The input is the state
the authoritative read (`aget_state`) returned for the thread.  The output
is the result returned to the caller, whether a state write (`aput_state`)
was issued, and the state visible in the persistence interface afterwards.
No state is a failure result; zero removals short-circuit without a write;
otherwise the repaired context — the original list with corrupt messages
removed, order preserved — is written back. -/
def fix_graph (st : Option AgentState) : FixResult × Bool × Option AgentState :=
  match st with
  | none => (⟨false, "No state found for thread", 0⟩, false, none)
  | some s =>
      let kept := s.context.filter fun m => !has_empty_tool_call m
      let removed := s.context.length - kept.length
      if removed = 0 then
        (⟨true, "No messages with empty tool calls found", 0⟩, false, some s)
      else
        (⟨true, "Successfully removed " ++ toString removed ++ " message(s)",
            removed⟩,
          true, some ⟨kept⟩)

end GraphService

end AgentflowCli


namespace SrcApp

/-- A stored message object as the persistence interface hands it back;
`to_dict` is its dict serialization (`Message.to_dict()` in
`checkpointer_service.py`). -/
structure MsgV where
  data : Fields
  deriving DecidableEq

/-- `msg.to_dict()`: the dict form of a stored message. -/
def MsgV.to_dict (m : MsgV) : Fields := m.data

/-- The persistence interface consumed by the service at
`src/app/routers/checkpointer/services/checkpointer_service.py`
(`pyagenity.base.BaseCheckpointer`, an external collaborator): each
operation takes the constructed configuration and either succeeds or fails
with an error message; state payloads are embedded in their dict form. -/
structure BaseCheckpointer where
  aget : Fields → Except String (Option Fields)
  aput : Fields → Fields → Except String Unit
  aclear : Fields → Except String Unit
  aput_messages : Fields → List MsgV → Option Fields → Except String Unit
  aget_message : Fields → Except String (Option MsgV)
  alist_messages :
    Fields → Option String → Option Nat → Option Nat → Except String (List MsgV)
  adelete_message : Fields → Except String Unit
  acleanup : Fields → Except String Unit

/-- Model of `pyagenity.memory.MemoryCheckpointer` (external collaborator):
a freshly constructed, empty in-memory checkpointer.  Only its existence —
it is never `None` — matters to the service's code paths. -/
def memoryCheckpointer : BaseCheckpointer where
  aget _ := Except.ok none
  aput _ _ := Except.ok ()
  aclear _ := Except.ok ()
  aput_messages _ _ _ := Except.ok ()
  aget_message _ := Except.ok none
  alist_messages _ _ _ _ := Except.ok []
  adelete_message _ := Except.ok ()
  acleanup _ := Except.ok ()

/-- `CheckpointerService.__init__`: `self.checkpointer = checkpointer or
MemoryCheckpointer()` — a missing argument is replaced by a default
in-memory checkpointer. -/
def init (checkpointer : Option BaseCheckpointer) : Option BaseCheckpointer :=
  some (checkpointer.getD memoryCheckpointer)

/-- Response schema carrying only the success flag and message
(`CheckpointerResponseSchema`; its class definition is not in this snapshot,
so its fields are taken from the service's constructor calls). -/
structure CheckpointerResponseSchema where
  success : Bool
  message : String
  deriving DecidableEq

/-- `CheckpointerService._check_checkpointer`: an error response when the
checkpointer is `None`, nothing when it is available. -/
def _check_checkpointer :
    Option BaseCheckpointer → Option CheckpointerResponseSchema
  | none => some ⟨false, "Checkpointer is not available or not initialized"⟩
  | some _ => none

/-- `StateSchema`: request carrying the configuration dict and, for writes,
the state payload (fields taken from the service's uses). -/
structure StateSchema where
  config : Fields
  state : Fields
  deriving DecidableEq

/-- `StateResponseSchema` as the service constructs it. -/
structure StateResponseSchema where
  success : Bool
  message : String
  state : Option Fields := none
  deriving DecidableEq

/-- `PutMessagesSchema` (fields taken from the service's uses). -/
structure PutMessagesSchema where
  config : Fields
  messages : List MsgV
  metadata : Option Fields
  deriving DecidableEq

/-- `GetMessageSchema` (the service only forwards its `config`). -/
structure GetMessageSchema where
  config : Fields
  deriving DecidableEq

/-- `ListMessagesSchema`: configuration plus optional search / offset /
limit. -/
structure ListMessagesSchema where
  config : Fields
  search : Option String
  offset : Option Nat
  limit : Option Nat
  deriving DecidableEq

/-- `DeleteMessageSchema` (the service only forwards its `config`). -/
structure DeleteMessageSchema where
  config : Fields
  deriving DecidableEq

/-- `CleanupSchema`. -/
structure CleanupSchema where
  config : Fields
  deriving DecidableEq

/-- `MessageResponseSchema` as the service constructs it. -/
structure MessageResponseSchema where
  success : Bool
  message : String
  message_data : Option Fields := none
  deriving DecidableEq

/-- `MessagesListResponseSchema` as the service constructs it: the page of
messages in dict form and `total`. -/
structure MessagesListResponseSchema where
  success : Bool
  message : String
  messages : List Fields := []
  total : Nat := 0
  deriving DecidableEq

/-- The `RunnableConfig(**schema.config)` constructor is external
(langchain) and can raise; every operation takes it as the parameter `mk`.
The `try` body of `CheckpointerService.get_state` after the availability
check: construct the configuration, read, and classify the outcome; any
exception is caught and converted (the embedding is a total function whose
error branches carry the caught message). -/
def get_state_body (c : BaseCheckpointer)
    (mk : Fields → Except String Fields) (schema : StateSchema) :
    StateResponseSchema :=
  match mk schema.config with
  | .error e => ⟨false, "Failed to get state: " ++ e, none⟩
  | .ok config =>
      match c.aget config with
      | .error e => ⟨false, "Failed to get state: " ++ e, none⟩
      | .ok none =>
          ⟨true, "No state found for the given configuration", none⟩
      | .ok (some st) => ⟨true, "State retrieved successfully", some st⟩

/-- `CheckpointerService.get_state`. -/
def get_state (cp : Option BaseCheckpointer)
    (mk : Fields → Except String Fields) (schema : StateSchema) :
    StateResponseSchema :=
  match cp with
  | none => ⟨false, "Checkpointer is not available or not initialized", none⟩
  | some c => get_state_body c mk schema

/-- The `try` body of `CheckpointerService.put_state`: construct the
configuration, write `schema.state`, and echo it back on success. -/
def put_state_body (c : BaseCheckpointer)
    (mk : Fields → Except String Fields) (schema : StateSchema) :
    StateResponseSchema :=
  match mk schema.config with
  | .error e => ⟨false, "Failed to put state: " ++ e, none⟩
  | .ok config =>
      match c.aput config schema.state with
      | .error e => ⟨false, "Failed to put state: " ++ e, none⟩
      | .ok _ => ⟨true, "State stored successfully", some schema.state⟩

/-- `CheckpointerService.put_state`. -/
def put_state (cp : Option BaseCheckpointer)
    (mk : Fields → Except String Fields) (schema : StateSchema) :
    StateResponseSchema :=
  match cp with
  | none => ⟨false, "Checkpointer is not available or not initialized", none⟩
  | some c => put_state_body c mk schema

/-- The `try` body of `CheckpointerService.clear_state`. -/
def clear_state_body (c : BaseCheckpointer)
    (mk : Fields → Except String Fields) (schema : StateSchema) :
    CheckpointerResponseSchema :=
  match mk schema.config with
  | .error e => ⟨false, "Failed to clear state: " ++ e⟩
  | .ok config =>
      match c.aclear config with
      | .error e => ⟨false, "Failed to clear state: " ++ e⟩
      | .ok _ => ⟨true, "State cleared successfully"⟩

/-- `CheckpointerService.clear_state`. -/
def clear_state (cp : Option BaseCheckpointer)
    (mk : Fields → Except String Fields) (schema : StateSchema) :
    CheckpointerResponseSchema :=
  match cp with
  | none => ⟨false, "Checkpointer is not available or not initialized"⟩
  | some c => clear_state_body c mk schema

/-- The `try` body of `CheckpointerService.put_messages`. -/
def put_messages_body (c : BaseCheckpointer)
    (mk : Fields → Except String Fields) (schema : PutMessagesSchema) :
    CheckpointerResponseSchema :=
  match mk schema.config with
  | .error e => ⟨false, "Failed to put messages: " ++ e⟩
  | .ok config =>
      match c.aput_messages config schema.messages schema.metadata with
      | .error e => ⟨false, "Failed to put messages: " ++ e⟩
      | .ok _ =>
          ⟨true, "Successfully stored " ++ toString schema.messages.length
            ++ " messages"⟩

/-- `CheckpointerService.put_messages`. -/
def put_messages (cp : Option BaseCheckpointer)
    (mk : Fields → Except String Fields) (schema : PutMessagesSchema) :
    CheckpointerResponseSchema :=
  match cp with
  | none => ⟨false, "Checkpointer is not available or not initialized"⟩
  | some c => put_messages_body c mk schema

/-- The `try` body of `CheckpointerService.get_message`. -/
def get_message_body (c : BaseCheckpointer)
    (mk : Fields → Except String Fields) (schema : GetMessageSchema) :
    MessageResponseSchema :=
  match mk schema.config with
  | .error e => ⟨false, "Failed to get message: " ++ e, none⟩
  | .ok config =>
      match c.aget_message config with
      | .error e => ⟨false, "Failed to get message: " ++ e, none⟩
      | .ok none =>
          ⟨true, "No message found for the given configuration", none⟩
      | .ok (some m) =>
          ⟨true, "Message retrieved successfully", some m.to_dict⟩

/-- `CheckpointerService.get_message`. -/
def get_message (cp : Option BaseCheckpointer)
    (mk : Fields → Except String Fields) (schema : GetMessageSchema) :
    MessageResponseSchema :=
  match cp with
  | none => ⟨false, "Checkpointer is not available or not initialized", none⟩
  | some c => get_message_body c mk schema

/-- The `try` body of `CheckpointerService.list_messages`: list the page,
convert each message to dict form, and report `total` as the length of that
converted page. -/
def list_messages_body (c : BaseCheckpointer)
    (mk : Fields → Except String Fields) (schema : ListMessagesSchema) :
    MessagesListResponseSchema :=
  match mk schema.config with
  | .error e => ⟨false, "Failed to list messages: " ++ e, [], 0⟩
  | .ok config =>
      match c.alist_messages config schema.search schema.offset schema.limit with
      | .error e => ⟨false, "Failed to list messages: " ++ e, [], 0⟩
      | .ok msgs =>
          let messages_data := msgs.map MsgV.to_dict
          ⟨true,
            "Retrieved " ++ toString messages_data.length ++ " messages",
            messages_data, messages_data.length⟩

/-- `CheckpointerService.list_messages`. -/
def list_messages (cp : Option BaseCheckpointer)
    (mk : Fields → Except String Fields) (schema : ListMessagesSchema) :
    MessagesListResponseSchema :=
  match cp with
  | none =>
      ⟨false, "Checkpointer is not available or not initialized", [], 0⟩
  | some c => list_messages_body c mk schema

/-- The `try` body of `CheckpointerService.delete_message`. -/
def delete_message_body (c : BaseCheckpointer)
    (mk : Fields → Except String Fields) (schema : DeleteMessageSchema) :
    CheckpointerResponseSchema :=
  match mk schema.config with
  | .error e => ⟨false, "Failed to delete message: " ++ e⟩
  | .ok config =>
      match c.adelete_message config with
      | .error e => ⟨false, "Failed to delete message: " ++ e⟩
      | .ok _ => ⟨true, "Message deleted successfully"⟩

/-- `CheckpointerService.delete_message`. -/
def delete_message (cp : Option BaseCheckpointer)
    (mk : Fields → Except String Fields) (schema : DeleteMessageSchema) :
    CheckpointerResponseSchema :=
  match cp with
  | none => ⟨false, "Checkpointer is not available or not initialized"⟩
  | some c => delete_message_body c mk schema

/-- The `try` body of `CheckpointerService.cleanup`. -/
def cleanup_body (c : BaseCheckpointer)
    (mk : Fields → Except String Fields) (schema : CleanupSchema) :
    CheckpointerResponseSchema :=
  match mk schema.config with
  | .error e => ⟨false, "Failed to cleanup: " ++ e⟩
  | .ok config =>
      match c.acleanup config with
      | .error e => ⟨false, "Failed to cleanup: " ++ e⟩
      | .ok _ => ⟨true, "Cleanup completed successfully"⟩

/-- `CheckpointerService.cleanup`. -/
def cleanup (cp : Option BaseCheckpointer)
    (mk : Fields → Except String Fields) (schema : CleanupSchema) :
    CheckpointerResponseSchema :=
  match cp with
  | none => ⟨false, "Checkpointer is not available or not initialized"⟩
  | some c => cleanup_body c mk schema

/-- The pipeline of `get_state` raises with message `e`: either the
configuration constructor raises or the persistence read raises. -/
def get_state_call_fails (c : BaseCheckpointer)
    (mk : Fields → Except String Fields) (s : StateSchema) (e : String) :
    Prop :=
  mk s.config = Except.error e ∨
    ∃ cfg, mk s.config = Except.ok cfg ∧ c.aget cfg = Except.error e

/-- The pipeline of `put_state` raises with message `e`. -/
def put_state_call_fails (c : BaseCheckpointer)
    (mk : Fields → Except String Fields) (s : StateSchema) (e : String) :
    Prop :=
  mk s.config = Except.error e ∨
    ∃ cfg, mk s.config = Except.ok cfg ∧ c.aput cfg s.state = Except.error e

/-- The pipeline of `clear_state` raises with message `e`. -/
def clear_state_call_fails (c : BaseCheckpointer)
    (mk : Fields → Except String Fields) (s : StateSchema) (e : String) :
    Prop :=
  mk s.config = Except.error e ∨
    ∃ cfg, mk s.config = Except.ok cfg ∧ c.aclear cfg = Except.error e

/-- The pipeline of `put_messages` raises with message `e`. -/
def put_messages_call_fails (c : BaseCheckpointer)
    (mk : Fields → Except String Fields) (s : PutMessagesSchema) (e : String) :
    Prop :=
  mk s.config = Except.error e ∨
    ∃ cfg, mk s.config = Except.ok cfg ∧
      c.aput_messages cfg s.messages s.metadata = Except.error e

/-- The pipeline of `get_message` raises with message `e`. -/
def get_message_call_fails (c : BaseCheckpointer)
    (mk : Fields → Except String Fields) (s : GetMessageSchema) (e : String) :
    Prop :=
  mk s.config = Except.error e ∨
    ∃ cfg, mk s.config = Except.ok cfg ∧ c.aget_message cfg = Except.error e

/-- The pipeline of `list_messages` raises with message `e`. -/
def list_messages_call_fails (c : BaseCheckpointer)
    (mk : Fields → Except String Fields) (s : ListMessagesSchema) (e : String) :
    Prop :=
  mk s.config = Except.error e ∨
    ∃ cfg, mk s.config = Except.ok cfg ∧
      c.alist_messages cfg s.search s.offset s.limit = Except.error e

/-- The pipeline of `delete_message` raises with message `e`. -/
def delete_message_call_fails (c : BaseCheckpointer)
    (mk : Fields → Except String Fields) (s : DeleteMessageSchema) (e : String) :
    Prop :=
  mk s.config = Except.error e ∨
    ∃ cfg, mk s.config = Except.ok cfg ∧
      c.adelete_message cfg = Except.error e

/-- The pipeline of `cleanup` raises with message `e`. -/
def cleanup_call_fails (c : BaseCheckpointer)
    (mk : Fields → Except String Fields) (s : CleanupSchema) (e : String) :
    Prop :=
  mk s.config = Except.error e ∨
    ∃ cfg, mk s.config = Except.ok cfg ∧ c.acleanup cfg = Except.error e

/-- A configuration constructor that always raises, for exercising the
error paths on concrete inputs. -/
def mkFailing : Fields → Except String Fields :=
  fun _ => Except.error "boom"

/-- A configuration constructor that succeeds with the entries unchanged. -/
def mkOk : Fields → Except String Fields :=
  fun d => Except.ok d

/-- A checkpointer whose message listing returns a concrete two-message
page, for exercising `list_messages` on concrete inputs. -/
def listingCheckpointer : BaseCheckpointer :=
  { memoryCheckpointer with
      alist_messages := fun _ _ _ _ =>
        Except.ok [⟨Fields.nil⟩, ⟨Fields.cons "k" (Val.vStr "v") Fields.nil⟩] }

end SrcApp

/-! ### Helper lemmas -/

@[simp] theorem dictGet_dictSet_self (d : Fields) (k : String) (v : Val) :
    dictGet (dictSet d k v) k = some v := by
  induction d using Fields.recSpine with
  | h0 => simp [dictSet, dictGet]
  | h1 k' v' rest ih =>
      by_cases h : k' = k <;> simp [dictSet, dictGet, h, ih]

theorem dictGet_dictSet_ne (d : Fields) (k k' : String) (v : Val)
    (h : k' ≠ k) : dictGet (dictSet d k' v) k = dictGet d k := by
  induction d using Fields.recSpine with
  | h0 => simp [dictSet, dictGet, h]
  | h1 k₀ v₀ rest ih =>
      by_cases h₀ : k₀ = k'
      · subst h₀; simp [dictSet, dictGet, h]
      · simp only [dictSet, if_neg h₀]
        by_cases h₁ : k₀ = k <;> simp [dictGet, h₁, ih]

namespace AgentflowCli

theorem _deep_merge_entry_eq_dictSet (base : Fields) (k : String) (v : Val) :
    ∃ w, _deep_merge_entry base k v = dictSet base k w := by
  cases v with
  | vNull => exact ⟨_, rfl⟩
  | vBool b => exact ⟨_, rfl⟩
  | vNat n => exact ⟨_, rfl⟩
  | vStr s => exact ⟨_, rfl⟩
  | vObj uf =>
      simp only [_deep_merge_entry]
      cases h : dictGet base k with
      | none => exact ⟨_, rfl⟩
      | some w => cases w <;> exact ⟨_, rfl⟩
  | vList ys =>
      simp only [_deep_merge_entry]
      cases h : dictGet base k with
      | none => exact ⟨_, rfl⟩
      | some w =>
          cases w <;> try exact ⟨_, rfl⟩
          case vList xs =>
            by_cases hk : k = "context"
            · subst hk
              exact ⟨Val.vList (xs.append ys), by simp⟩
            · exact ⟨Val.vList ys, by simp [hk]⟩

theorem dictGet_deep_merge_entry_ne (base : Fields) (k : String) (v : Val)
    (k' : String) (h : k ≠ k') :
    dictGet (_deep_merge_entry base k v) k' = dictGet base k' := by
  obtain ⟨w, hw⟩ := _deep_merge_entry_eq_dictSet base k v
  rw [hw, dictGet_dictSet_ne _ _ _ _ h]

theorem dictGet_deep_merge_absent (updates base : Fields) (k : String)
    (h : k ∉ updates.keys) :
    dictGet (_deep_merge_dicts base updates) k = dictGet base k := by
  induction updates using Fields.recSpine generalizing base with
  | h0 => simp [_deep_merge_dicts]
  | h1 k' v rest ih =>
      simp only [Fields.keys, List.mem_cons, not_or] at h
      rw [_deep_merge_dicts, ih _ h.2,
        dictGet_deep_merge_entry_ne _ _ _ _ (fun hk => h.1 hk.symm)]

theorem dictGet_deep_merge_context (updates base : Fields) (xs ys : ValList)
    (h1 : dictGet base "context" = some (Val.vList xs))
    (h2 : dictGet updates "context" = some (Val.vList ys))
    (hnd : updates.keys.Nodup) :
    dictGet (_deep_merge_dicts base updates) "context"
      = some (Val.vList (xs.append ys)) := by
  induction updates using Fields.recSpine generalizing base with
  | h0 => simp [dictGet] at h2
  | h1 k v rest ih =>
      simp only [Fields.keys, List.nodup_cons] at hnd
      by_cases hk : k = "context"
      · subst hk
        simp only [dictGet, if_true, reduceIte, Option.some.injEq] at h2
        subst h2
        rw [_deep_merge_dicts,
          dictGet_deep_merge_absent _ _ _ hnd.1,
          show _deep_merge_entry base "context" (Val.vList ys)
              = dictSet base "context" (Val.vList (xs.append ys)) by
            simp [_deep_merge_entry, h1],
          dictGet_dictSet_self]
      · rw [dictGet, if_neg hk] at h2
        rw [_deep_merge_dicts]
        exact ih (_deep_merge_entry base k v)
          (by rw [dictGet_deep_merge_entry_ne _ _ _ _ hk]; exact h1) h2 hnd.2

theorem _config_scoped (config user : Fields) (u : Val)
    (hu : dictGet user "user_id" = some u) (hn : u ≠ Val.vNull) :
    ScopedFor user (_config config user) := by
  refine ⟨?_, u, ?_, hn⟩
  · rw [_config, dictGet_dictSet_ne _ _ _ _ (by decide), dictGet_dictSet_self]
  · rw [_config, dictGet_dictSet_self, dictGetD, hu, Option.getD_some]

theorem get_state_fst (p : Persist) (config user : Fields) :
    (get_state p config user).1 = _config config user := by
  rcases p with ⟨pp, pc⟩
  cases pp <;> cases pc <;> rfl

theorem put_state_fst (p : Persist) (config user candidate : Fields) :
    (put_state p config user candidate).1 = _config config user := by
  rcases p with ⟨pp, pc⟩
  cases pp <;> cases pc <;> rfl

namespace GraphService

theorem length_filter_not_add (p : Message → Bool) (l : List Message) :
    (l.filter fun m => !p m).length + (l.filter p).length = l.length := by
  induction l with
  | nil => simp
  | cons hd tl ih =>
      by_cases h : p hd <;> simp [List.filter_cons, h] <;> omega

end GraphService

end AgentflowCli

/-! ### Claims -/

/-- C1: For every previously-persisted state `old` and every caller-supplied
candidate state `new`, the merge engine's result takes `execution_meta` from
`old`: `merge(old, new).execution_meta` equals `old.execution_meta`,
regardless of what `new.execution_meta` contains, and no caller input can
override it (the statement quantifies over arbitrary `new`, including ones
that carry their own `execution_meta`). -/
theorem merge_takes_execution_meta_from_old (old new : Fields) (m : Val)
    (h : dictGet old "execution_meta" = some m) :
    dictGet (AgentflowCli._merge_states old new) "execution_meta" = some m := by
  rw [AgentflowCli._merge_states, dictGet_dictSet_self, dictGetD, h,
    Option.getD_some]

/-- Witness for C1: a concrete `old` with `execution_meta = "M"` and a
`new` that tries to overwrite it with `"EVIL"`; the merge keeps `"M"`. -/
theorem merge_takes_execution_meta_from_old_witness :
    dictGet (Fields.cons "execution_meta" (Val.vStr "M") Fields.nil)
        "execution_meta" = some (Val.vStr "M") ∧
    dictGet (AgentflowCli._merge_states
        (Fields.cons "execution_meta" (Val.vStr "M") Fields.nil)
        (Fields.cons "execution_meta" (Val.vStr "EVIL") Fields.nil))
        "execution_meta" = some (Val.vStr "M") :=
  ⟨by decide, merge_takes_execution_meta_from_old _ _ _ (by decide)⟩

/-- C2: `put_state` reads the currently persisted state — using the
secondary cache read as `old` when the primary read returns nothing — runs
it and the candidate through the merge engine, persists the merge result
and returns the merge result; the candidate is never persisted unmerged. -/
theorem put_state_persists_merge_result (p : AgentflowCli.Persist)
    (config user candidate old : Fields)
    (h : p.primary = some old ∨ (p.primary = none ∧ p.cache = some old)) :
    (AgentflowCli.put_state p config user candidate).2.1.primary
        = some (AgentflowCli._merge_states old candidate) ∧
    (AgentflowCli.put_state p config user candidate).2.2
        = AgentflowCli._merge_states old candidate := by
  rcases h with h | ⟨h1, h2⟩
  · simp [AgentflowCli.put_state, h]
  · simp [AgentflowCli.put_state, h1, h2]

/-- Witness for C2, exercising the cache-fallback branch: the primary slot
is empty, the cache holds a state, and `put_state` persists and returns the
merge of the cached state with the candidate. -/
theorem put_state_persists_merge_result_witness :
    (AgentflowCli.put_state
        ⟨none, some (Fields.cons "execution_meta" (Val.vStr "M") Fields.nil)⟩
        Fields.nil Fields.nil
        (Fields.cons "x" (Val.vStr "y") Fields.nil)).2.1.primary
      = some (AgentflowCli._merge_states
          (Fields.cons "execution_meta" (Val.vStr "M") Fields.nil)
          (Fields.cons "x" (Val.vStr "y") Fields.nil)) ∧
    (AgentflowCli.put_state
        ⟨none, some (Fields.cons "execution_meta" (Val.vStr "M") Fields.nil)⟩
        Fields.nil Fields.nil
        (Fields.cons "x" (Val.vStr "y") Fields.nil)).2.2
      = AgentflowCli._merge_states
          (Fields.cons "execution_meta" (Val.vStr "M") Fields.nil)
          (Fields.cons "x" (Val.vStr "y") Fields.nil) :=
  put_state_persists_merge_result _ _ _ _ _ (Or.inr ⟨rfl, rfl⟩)

/-- C3 counterexample: with `old.context = ["old_message"]` and
`new.context = ["new_message"]` (non-empty), the merged context is the
concatenation `["old_message", "new_message"]`, not the caller's list
`["new_message"]` — the claim that the caller's non-empty list replaces the
merged context wholesale is false (this is exactly the behavior the unit
test `test_merge_states_context_append` asserts). -/
theorem context_replace_counterexample :
    dictGet (AgentflowCli._merge_states
        (Fields.cons "context"
          (Val.vList (ValList.cons (Val.vStr "old_message") ValList.nil))
          Fields.nil)
        (Fields.cons "context"
          (Val.vList (ValList.cons (Val.vStr "new_message") ValList.nil))
          Fields.nil)) "context"
      = some (Val.vList (ValList.cons (Val.vStr "old_message")
          (ValList.cons (Val.vStr "new_message") ValList.nil))) ∧
    ¬ dictGet (AgentflowCli._merge_states
        (Fields.cons "context"
          (Val.vList (ValList.cons (Val.vStr "old_message") ValList.nil))
          Fields.nil)
        (Fields.cons "context"
          (Val.vList (ValList.cons (Val.vStr "new_message") ValList.nil))
          Fields.nil)) "context"
      = some (Val.vList (ValList.cons (Val.vStr "new_message") ValList.nil)) := by
  decide

/-- C3 (amended): for every persisted state `old` with a list-valued
`context` and candidate `new` whose `context` is a non-empty message list
(keys of `new` unique, as in a Python dict), the merged `context` is the
concatenation `old.context ++ new.context` — the caller's list is appended
to the stored history, not substituted for it. -/
theorem merge_concatenates_nonempty_context (old new : Fields)
    (xs ys : ValList)
    (h1 : dictGet old "context" = some (Val.vList xs))
    (h2 : dictGet new "context" = some (Val.vList ys))
    (h3 : ys ≠ ValList.nil)
    (hnd : new.keys.Nodup) :
    dictGet (AgentflowCli._merge_states old new) "context"
      = some (Val.vList (xs.append ys)) := by
  rw [AgentflowCli._merge_states, dictGet_dictSet_ne _ _ _ _ (by decide),
    AgentflowCli.dictGet_deep_merge_context new old xs ys h1 h2 hnd]

/-- Witness for C3 (amended): the concrete merge of
`old.context = ["old_message"]` with `new.context = ["new_message"]`. -/
theorem merge_concatenates_nonempty_context_witness :
    ValList.cons (Val.vStr "new_message") ValList.nil ≠ ValList.nil ∧
    dictGet (AgentflowCli._merge_states
        (Fields.cons "context"
          (Val.vList (ValList.cons (Val.vStr "old_message") ValList.nil))
          Fields.nil)
        (Fields.cons "context"
          (Val.vList (ValList.cons (Val.vStr "new_message") ValList.nil))
          Fields.nil)) "context"
      = some (Val.vList
          ((ValList.cons (Val.vStr "old_message") ValList.nil).append
            (ValList.cons (Val.vStr "new_message") ValList.nil))) :=
  ⟨by decide,
    merge_concatenates_nonempty_context _ _ _ _ (by decide) (by decide)
      (by decide) (by decide)⟩

/-- C4: every Checkpoint Service operation (`get_state`, `put_state`,
`clear_state`, `put_messages`, `get_message`, `list_messages`,
`delete_message`, `get_thread`, `list_threads`, `delete_thread`) invoked
with an authenticated user map (one carrying a non-null `user_id`) passes
the persistence interface a configuration map containing both the `user`
object and a non-null derived `user_id` — no operation reaches the
persistence interface with an unscoped configuration. -/
theorem scoping_invariant_all_ops (config user : Fields) (u : Val)
    (p : AgentflowCli.Persist) (candidate : Fields) {α β : Type}
    (messages : List α) (metadata : Fields)
    (aput_messages : Fields → List α → Fields → β) (f : Fields → β)
    (g : Fields → Option String → Option Nat → Option Nat → β)
    (search : Option String) (offset limit : Option Nat)
    (thread_id : String)
    (hu : dictGet user "user_id" = some u) (hn : u ≠ Val.vNull) :
    AgentflowCli.ScopedFor user (AgentflowCli.get_state p config user).1 ∧
    AgentflowCli.ScopedFor user
      (AgentflowCli.put_state p config user candidate).1 ∧
    AgentflowCli.ScopedFor user (AgentflowCli.clear_state p config user).1 ∧
    AgentflowCli.ScopedFor user
      (AgentflowCli.put_messages aput_messages config user messages
        metadata).1 ∧
    AgentflowCli.ScopedFor user (AgentflowCli.get_message f config user).1 ∧
    AgentflowCli.ScopedFor user
      (AgentflowCli.list_messages g config user search offset limit).1 ∧
    AgentflowCli.ScopedFor user
      (AgentflowCli.delete_message f config user).1 ∧
    AgentflowCli.ScopedFor user (AgentflowCli.get_thread f config user).1 ∧
    AgentflowCli.ScopedFor user
      (AgentflowCli.list_threads g user search offset limit).1 ∧
    AgentflowCli.ScopedFor user
      (AgentflowCli.delete_thread f config user thread_id).1 := by
  have hs := fun c => AgentflowCli._config_scoped c user u hu hn
  refine ⟨?_, ?_, hs _, hs _, hs _, hs _, hs _, hs _, hs _, hs _⟩
  · rw [AgentflowCli.get_state_fst]; exact hs _
  · rw [AgentflowCli.put_state_fst]; exact hs _

/-- Witness for C4: the concrete authenticated user `{user_id: "123"}`
scopes all ten operations' configurations. -/
theorem scoping_invariant_all_ops_witness :
    dictGet (Fields.cons "user_id" (Val.vStr "123") Fields.nil) "user_id"
      = some (Val.vStr "123") ∧
    AgentflowCli.ScopedFor (Fields.cons "user_id" (Val.vStr "123") Fields.nil)
      (AgentflowCli.get_state ⟨none, none⟩ Fields.nil
        (Fields.cons "user_id" (Val.vStr "123") Fields.nil)).1 ∧
    AgentflowCli.ScopedFor (Fields.cons "user_id" (Val.vStr "123") Fields.nil)
      (AgentflowCli.put_state ⟨none, none⟩ Fields.nil
        (Fields.cons "user_id" (Val.vStr "123") Fields.nil) Fields.nil).1 ∧
    AgentflowCli.ScopedFor (Fields.cons "user_id" (Val.vStr "123") Fields.nil)
      (AgentflowCli.clear_state ⟨none, none⟩ Fields.nil
        (Fields.cons "user_id" (Val.vStr "123") Fields.nil)).1 ∧
    AgentflowCli.ScopedFor (Fields.cons "user_id" (Val.vStr "123") Fields.nil)
      (AgentflowCli.put_messages (fun _ (_ : List Unit) _ => ()) Fields.nil
        (Fields.cons "user_id" (Val.vStr "123") Fields.nil) [] Fields.nil).1 ∧
    AgentflowCli.ScopedFor (Fields.cons "user_id" (Val.vStr "123") Fields.nil)
      (AgentflowCli.get_message (fun _ => ()) Fields.nil
        (Fields.cons "user_id" (Val.vStr "123") Fields.nil)).1 ∧
    AgentflowCli.ScopedFor (Fields.cons "user_id" (Val.vStr "123") Fields.nil)
      (AgentflowCli.list_messages (fun _ _ _ _ => ()) Fields.nil
        (Fields.cons "user_id" (Val.vStr "123") Fields.nil)
        none none none).1 ∧
    AgentflowCli.ScopedFor (Fields.cons "user_id" (Val.vStr "123") Fields.nil)
      (AgentflowCli.delete_message (fun _ => ()) Fields.nil
        (Fields.cons "user_id" (Val.vStr "123") Fields.nil)).1 ∧
    AgentflowCli.ScopedFor (Fields.cons "user_id" (Val.vStr "123") Fields.nil)
      (AgentflowCli.get_thread (fun _ => ()) Fields.nil
        (Fields.cons "user_id" (Val.vStr "123") Fields.nil)).1 ∧
    AgentflowCli.ScopedFor (Fields.cons "user_id" (Val.vStr "123") Fields.nil)
      (AgentflowCli.list_threads (fun _ _ _ _ => ())
        (Fields.cons "user_id" (Val.vStr "123") Fields.nil)
        none none none).1 ∧
    AgentflowCli.ScopedFor (Fields.cons "user_id" (Val.vStr "123") Fields.nil)
      (AgentflowCli.delete_thread (fun _ => ()) Fields.nil
        (Fields.cons "user_id" (Val.vStr "123") Fields.nil) "thread_123").1 :=
  ⟨by decide,
    scoping_invariant_all_ops Fields.nil
      (Fields.cons "user_id" (Val.vStr "123") Fields.nil) (Val.vStr "123")
      ⟨none, none⟩ Fields.nil [] Fields.nil (fun _ (_ : List Unit) _ => ())
      (fun _ => ()) (fun _ _ _ _ => ()) none none none "thread_123"
      (by decide) (by decide)⟩

/-- C5: for every thread whose loaded state has context `[m1..mn]`, the
recovery operation removes exactly the corrupt messages (non-empty
tool-call list with an entry whose content is empty or null), keeps the
remaining messages in their original relative order (the resulting context
is the corresponding sublist of the original), and returns success with
`removed_count` equal to the number of messages removed. -/
theorem fix_graph_removes_exactly_corrupt
    (ctx : List AgentflowCli.GraphService.Message) :
    (AgentflowCli.GraphService.fix_graph (some ⟨ctx⟩)).1.success = true ∧
    (AgentflowCli.GraphService.fix_graph (some ⟨ctx⟩)).1.removed_count
      = (ctx.filter AgentflowCli.GraphService.has_empty_tool_call).length ∧
    (AgentflowCli.GraphService.fix_graph (some ⟨ctx⟩)).2.2
      = some ⟨ctx.filter
          fun m => !AgentflowCli.GraphService.has_empty_tool_call m⟩ ∧
    List.Sublist
      (ctx.filter fun m => !AgentflowCli.GraphService.has_empty_tool_call m)
      ctx := by
  have hsub := List.filter_sublist
    (p := fun m => !AgentflowCli.GraphService.has_empty_tool_call m) ctx
  have hlen := AgentflowCli.GraphService.length_filter_not_add
    AgentflowCli.GraphService.has_empty_tool_call ctx
  by_cases h0 : ctx.length
      - (ctx.filter
          fun m => !AgentflowCli.GraphService.has_empty_tool_call m).length
      = 0
  · have hp0 : (ctx.filter
        AgentflowCli.GraphService.has_empty_tool_call).length = 0 := by omega
    have hnil : ctx.filter AgentflowCli.GraphService.has_empty_tool_call
        = [] := List.length_eq_zero.mp hp0
    have hall := List.filter_eq_nil_iff.mp hnil
    have hself : (ctx.filter
        fun m => !AgentflowCli.GraphService.has_empty_tool_call m) = ctx :=
      List.filter_eq_self.mpr (fun a ha => by simp [hall a ha])
    refine ⟨?_, ?_, ?_, hsub⟩ <;>
      simp [AgentflowCli.GraphService.fix_graph, h0, hp0, hself]
  · refine ⟨?_, ?_, ?_, hsub⟩ <;>
      simp only [AgentflowCli.GraphService.fix_graph, h0, if_neg,
        not_false_iff] <;>
      first
        | rfl
        | omega

/-- C6: `get_state` on a thread with no persisted state returns a
successful result with an empty state payload, whereas the recovery
operation on a thread whose read returns no state yields a failure result
("no state found") with `removed_count` zero — the two operations report
missing state differently. -/
theorem missing_state_semantics (c : SrcApp.BaseCheckpointer)
    (mk : Fields → Except String Fields) (ss : SrcApp.StateSchema)
    (cfg : Fields)
    (h1 : mk ss.config = Except.ok cfg)
    (h2 : c.aget cfg = Except.ok none) :
    (SrcApp.get_state (some c) mk ss).success = true ∧
    (SrcApp.get_state (some c) mk ss).state = none ∧
    (SrcApp.get_state (some c) mk ss).message
      = "No state found for the given configuration" ∧
    (AgentflowCli.GraphService.fix_graph none).1.success = false ∧
    (AgentflowCli.GraphService.fix_graph none).1.message
      = "No state found for thread" ∧
    (AgentflowCli.GraphService.fix_graph none).1.removed_count = 0 := by
  refine ⟨?_, ?_, ?_, rfl, rfl, rfl⟩ <;>
    simp [SrcApp.get_state, SrcApp.get_state_body, h1, h2]

/-- Witness for C6: the default empty in-memory checkpointer misses every
read, so `get_state` reports the successful empty result while the recovery
operation fails. -/
theorem missing_state_semantics_witness :
    SrcApp.mkOk Fields.nil = Except.ok Fields.nil ∧
    SrcApp.memoryCheckpointer.aget Fields.nil = Except.ok none ∧
    (SrcApp.get_state (some SrcApp.memoryCheckpointer) SrcApp.mkOk
        ⟨Fields.nil, Fields.nil⟩).success = true ∧
    (SrcApp.get_state (some SrcApp.memoryCheckpointer) SrcApp.mkOk
        ⟨Fields.nil, Fields.nil⟩).state = none ∧
    (SrcApp.get_state (some SrcApp.memoryCheckpointer) SrcApp.mkOk
        ⟨Fields.nil, Fields.nil⟩).message
      = "No state found for the given configuration" ∧
    (AgentflowCli.GraphService.fix_graph none).1.success = false ∧
    (AgentflowCli.GraphService.fix_graph none).1.message
      = "No state found for thread" ∧
    (AgentflowCli.GraphService.fix_graph none).1.removed_count = 0 := by
  refine ⟨rfl, rfl, ?_⟩
  have h := missing_state_semantics SrcApp.memoryCheckpointer SrcApp.mkOk
    ⟨Fields.nil, Fields.nil⟩ Fields.nil rfl rfl
  exact ⟨h.1, h.2.1, h.2.2.1, h.2.2.2.1, h.2.2.2.2.1, h.2.2.2.2.2⟩

/-- C7: whenever the recovery operation finds zero corrupt messages in the
loaded context, it returns success with `removed_count = 0`, issues no
state-write to the persistence interface (the write flag is `false`), and
the persisted state is left untouched. -/
theorem fix_graph_noop_suppresses_write
    (ctx : List AgentflowCli.GraphService.Message)
    (h : ∀ m ∈ ctx,
      AgentflowCli.GraphService.has_empty_tool_call m = false) :
    AgentflowCli.GraphService.fix_graph (some ⟨ctx⟩)
      = (⟨true, "No messages with empty tool calls found", 0⟩, false,
          some ⟨ctx⟩) := by
  have hself : (ctx.filter
      fun m => !AgentflowCli.GraphService.has_empty_tool_call m) = ctx :=
    List.filter_eq_self.mpr (fun a ha => by simp [h a ha])
  simp [AgentflowCli.GraphService.fix_graph, hself]

/-- Witness for C7: a one-message clean context passes through the recovery
operation unchanged, with no write issued. -/
theorem fix_graph_noop_suppresses_write_witness :
    (∀ m ∈ [(⟨"msg1", "user", none⟩ : AgentflowCli.GraphService.Message)],
      AgentflowCli.GraphService.has_empty_tool_call m = false) ∧
    AgentflowCli.GraphService.fix_graph
        (some ⟨[(⟨"msg1", "user", none⟩ :
            AgentflowCli.GraphService.Message)]⟩)
      = (⟨true, "No messages with empty tool calls found", 0⟩, false,
          some ⟨[(⟨"msg1", "user", none⟩ :
              AgentflowCli.GraphService.Message)]⟩) :=
  ⟨by decide, fix_graph_noop_suppresses_write _ (by decide)⟩

/-- C8: every Checkpoint Service operation catches any failure raised
during the call — whether the configuration construction or the
persistence-interface call raises — and returns a structured result with
`success = false` and a human-readable message; the embedding is a total
function into the response schema, so no exception propagates into the
routing layer. -/
theorem service_catches_all_failures (c : SrcApp.BaseCheckpointer)
    (mk : Fields → Except String Fields)
    (ss ps cs : SrcApp.StateSchema) (pm : SrcApp.PutMessagesSchema)
    (gm : SrcApp.GetMessageSchema) (lm : SrcApp.ListMessagesSchema)
    (dm : SrcApp.DeleteMessageSchema) (cu : SrcApp.CleanupSchema)
    (e1 e2 e3 e4 e5 e6 e7 e8 : String)
    (h1 : SrcApp.get_state_call_fails c mk ss e1)
    (h2 : SrcApp.put_state_call_fails c mk ps e2)
    (h3 : SrcApp.clear_state_call_fails c mk cs e3)
    (h4 : SrcApp.put_messages_call_fails c mk pm e4)
    (h5 : SrcApp.get_message_call_fails c mk gm e5)
    (h6 : SrcApp.list_messages_call_fails c mk lm e6)
    (h7 : SrcApp.delete_message_call_fails c mk dm e7)
    (h8 : SrcApp.cleanup_call_fails c mk cu e8) :
    ((SrcApp.get_state (some c) mk ss).success = false ∧
      (SrcApp.get_state (some c) mk ss).message
        = "Failed to get state: " ++ e1) ∧
    ((SrcApp.put_state (some c) mk ps).success = false ∧
      (SrcApp.put_state (some c) mk ps).message
        = "Failed to put state: " ++ e2) ∧
    ((SrcApp.clear_state (some c) mk cs).success = false ∧
      (SrcApp.clear_state (some c) mk cs).message
        = "Failed to clear state: " ++ e3) ∧
    ((SrcApp.put_messages (some c) mk pm).success = false ∧
      (SrcApp.put_messages (some c) mk pm).message
        = "Failed to put messages: " ++ e4) ∧
    ((SrcApp.get_message (some c) mk gm).success = false ∧
      (SrcApp.get_message (some c) mk gm).message
        = "Failed to get message: " ++ e5) ∧
    ((SrcApp.list_messages (some c) mk lm).success = false ∧
      (SrcApp.list_messages (some c) mk lm).message
        = "Failed to list messages: " ++ e6) ∧
    ((SrcApp.delete_message (some c) mk dm).success = false ∧
      (SrcApp.delete_message (some c) mk dm).message
        = "Failed to delete message: " ++ e7) ∧
    ((SrcApp.cleanup (some c) mk cu).success = false ∧
      (SrcApp.cleanup (some c) mk cu).message
        = "Failed to cleanup: " ++ e8) := by
  refine ⟨?_, ?_, ?_, ?_, ?_, ?_, ?_, ?_⟩
  · rcases h1 with h | ⟨cfg, hok, herr⟩
    · simp [SrcApp.get_state, SrcApp.get_state_body, h]
    · simp [SrcApp.get_state, SrcApp.get_state_body, hok, herr]
  · rcases h2 with h | ⟨cfg, hok, herr⟩
    · simp [SrcApp.put_state, SrcApp.put_state_body, h]
    · simp [SrcApp.put_state, SrcApp.put_state_body, hok, herr]
  · rcases h3 with h | ⟨cfg, hok, herr⟩
    · simp [SrcApp.clear_state, SrcApp.clear_state_body, h]
    · simp [SrcApp.clear_state, SrcApp.clear_state_body, hok, herr]
  · rcases h4 with h | ⟨cfg, hok, herr⟩
    · simp [SrcApp.put_messages, SrcApp.put_messages_body, h]
    · simp [SrcApp.put_messages, SrcApp.put_messages_body, hok, herr]
  · rcases h5 with h | ⟨cfg, hok, herr⟩
    · simp [SrcApp.get_message, SrcApp.get_message_body, h]
    · simp [SrcApp.get_message, SrcApp.get_message_body, hok, herr]
  · rcases h6 with h | ⟨cfg, hok, herr⟩
    · simp [SrcApp.list_messages, SrcApp.list_messages_body, h]
    · simp [SrcApp.list_messages, SrcApp.list_messages_body, hok, herr]
  · rcases h7 with h | ⟨cfg, hok, herr⟩
    · simp [SrcApp.delete_message, SrcApp.delete_message_body, h]
    · simp [SrcApp.delete_message, SrcApp.delete_message_body, hok, herr]
  · rcases h8 with h | ⟨cfg, hok, herr⟩
    · simp [SrcApp.cleanup, SrcApp.cleanup_body, h]
    · simp [SrcApp.cleanup, SrcApp.cleanup_body, hok, herr]

/-- Witness for C8: with a configuration constructor that raises `"boom"`,
every operation returns `success = false` and the caught message. -/
theorem service_catches_all_failures_witness :
    ((SrcApp.get_state (some SrcApp.memoryCheckpointer) SrcApp.mkFailing
        ⟨Fields.nil, Fields.nil⟩).success = false ∧
      (SrcApp.get_state (some SrcApp.memoryCheckpointer) SrcApp.mkFailing
        ⟨Fields.nil, Fields.nil⟩).message
        = "Failed to get state: " ++ "boom") ∧
    ((SrcApp.put_state (some SrcApp.memoryCheckpointer) SrcApp.mkFailing
        ⟨Fields.nil, Fields.nil⟩).success = false ∧
      (SrcApp.put_state (some SrcApp.memoryCheckpointer) SrcApp.mkFailing
        ⟨Fields.nil, Fields.nil⟩).message
        = "Failed to put state: " ++ "boom") ∧
    ((SrcApp.clear_state (some SrcApp.memoryCheckpointer) SrcApp.mkFailing
        ⟨Fields.nil, Fields.nil⟩).success = false ∧
      (SrcApp.clear_state (some SrcApp.memoryCheckpointer) SrcApp.mkFailing
        ⟨Fields.nil, Fields.nil⟩).message
        = "Failed to clear state: " ++ "boom") ∧
    ((SrcApp.put_messages (some SrcApp.memoryCheckpointer) SrcApp.mkFailing
        ⟨Fields.nil, [], none⟩).success = false ∧
      (SrcApp.put_messages (some SrcApp.memoryCheckpointer) SrcApp.mkFailing
        ⟨Fields.nil, [], none⟩).message
        = "Failed to put messages: " ++ "boom") ∧
    ((SrcApp.get_message (some SrcApp.memoryCheckpointer) SrcApp.mkFailing
        ⟨Fields.nil⟩).success = false ∧
      (SrcApp.get_message (some SrcApp.memoryCheckpointer) SrcApp.mkFailing
        ⟨Fields.nil⟩).message
        = "Failed to get message: " ++ "boom") ∧
    ((SrcApp.list_messages (some SrcApp.memoryCheckpointer) SrcApp.mkFailing
        ⟨Fields.nil, none, none, none⟩).success = false ∧
      (SrcApp.list_messages (some SrcApp.memoryCheckpointer) SrcApp.mkFailing
        ⟨Fields.nil, none, none, none⟩).message
        = "Failed to list messages: " ++ "boom") ∧
    ((SrcApp.delete_message (some SrcApp.memoryCheckpointer) SrcApp.mkFailing
        ⟨Fields.nil⟩).success = false ∧
      (SrcApp.delete_message (some SrcApp.memoryCheckpointer) SrcApp.mkFailing
        ⟨Fields.nil⟩).message
        = "Failed to delete message: " ++ "boom") ∧
    ((SrcApp.cleanup (some SrcApp.memoryCheckpointer) SrcApp.mkFailing
        ⟨Fields.nil⟩).success = false ∧
      (SrcApp.cleanup (some SrcApp.memoryCheckpointer) SrcApp.mkFailing
        ⟨Fields.nil⟩).message
        = "Failed to cleanup: " ++ "boom") :=
  service_catches_all_failures SrcApp.memoryCheckpointer SrcApp.mkFailing
    ⟨Fields.nil, Fields.nil⟩ ⟨Fields.nil, Fields.nil⟩
    ⟨Fields.nil, Fields.nil⟩ ⟨Fields.nil, [], none⟩ ⟨Fields.nil⟩
    ⟨Fields.nil, none, none, none⟩ ⟨Fields.nil⟩ ⟨Fields.nil⟩
    "boom" "boom" "boom" "boom" "boom" "boom" "boom" "boom"
    (Or.inl rfl) (Or.inl rfl) (Or.inl rfl) (Or.inl rfl) (Or.inl rfl)
    (Or.inl rfl) (Or.inl rfl) (Or.inl rfl)

/-- C9: constructing the service with no checkpointer argument (or `None`)
substitutes a default in-memory checkpointer, so the checkpointer field of
every instance built through the constructor is non-`None`, the
"Checkpointer is not available or not initialized" branch of
`_check_checkpointer` is unreachable, and every operation proceeds to its
persistence-calling body. -/
theorem init_defaults_memory_checkpointer
    (cp : Option SrcApp.BaseCheckpointer) :
    SrcApp.init cp = some (cp.getD SrcApp.memoryCheckpointer) ∧
    SrcApp._check_checkpointer (SrcApp.init cp) = none ∧
    (∀ mk ss, SrcApp.get_state (SrcApp.init cp) mk ss
      = SrcApp.get_state_body (cp.getD SrcApp.memoryCheckpointer) mk ss) ∧
    (∀ mk ss, SrcApp.put_state (SrcApp.init cp) mk ss
      = SrcApp.put_state_body (cp.getD SrcApp.memoryCheckpointer) mk ss) ∧
    (∀ mk ss, SrcApp.clear_state (SrcApp.init cp) mk ss
      = SrcApp.clear_state_body (cp.getD SrcApp.memoryCheckpointer) mk ss) ∧
    (∀ mk pm, SrcApp.put_messages (SrcApp.init cp) mk pm
      = SrcApp.put_messages_body (cp.getD SrcApp.memoryCheckpointer)
          mk pm) ∧
    (∀ mk gm, SrcApp.get_message (SrcApp.init cp) mk gm
      = SrcApp.get_message_body (cp.getD SrcApp.memoryCheckpointer) mk gm) ∧
    (∀ mk lm, SrcApp.list_messages (SrcApp.init cp) mk lm
      = SrcApp.list_messages_body (cp.getD SrcApp.memoryCheckpointer)
          mk lm) ∧
    (∀ mk dm, SrcApp.delete_message (SrcApp.init cp) mk dm
      = SrcApp.delete_message_body (cp.getD SrcApp.memoryCheckpointer)
          mk dm) ∧
    (∀ mk cu, SrcApp.cleanup (SrcApp.init cp) mk cu
      = SrcApp.cleanup_body (cp.getD SrcApp.memoryCheckpointer) mk cu) := by
  cases cp <;>
    simp [SrcApp.init, SrcApp._check_checkpointer, SrcApp.get_state,
      SrcApp.put_state, SrcApp.clear_state, SrcApp.put_messages,
      SrcApp.get_message, SrcApp.list_messages, SrcApp.delete_message,
      SrcApp.cleanup]

/-- C10: every successful `list_messages` response reports `total` equal to
the length of the returned page of messages — the list the persistence
interface produced after applying search, offset and limit, here an
arbitrary `msgs` unrelated to any overall thread count — and the success
message reports that same number. -/
theorem list_messages_total_is_page_length (c : SrcApp.BaseCheckpointer)
    (mk : Fields → Except String Fields) (lm : SrcApp.ListMessagesSchema)
    (cfg : Fields) (msgs : List SrcApp.MsgV)
    (h1 : mk lm.config = Except.ok cfg)
    (h2 : c.alist_messages cfg lm.search lm.offset lm.limit
      = Except.ok msgs) :
    (SrcApp.list_messages (some c) mk lm).success = true ∧
    (SrcApp.list_messages (some c) mk lm).messages
      = msgs.map SrcApp.MsgV.to_dict ∧
    (SrcApp.list_messages (some c) mk lm).total
      = (SrcApp.list_messages (some c) mk lm).messages.length ∧
    (SrcApp.list_messages (some c) mk lm).message
      = "Retrieved " ++ toString (SrcApp.list_messages (some c) mk lm).total
          ++ " messages" := by
  simp [SrcApp.list_messages, SrcApp.list_messages_body, h1, h2]

/-- Witness for C10: a checkpointer returning a two-message page yields
`total = 2` and the matching message. -/
theorem list_messages_total_is_page_length_witness :
    (SrcApp.list_messages (some SrcApp.listingCheckpointer) SrcApp.mkOk
        ⟨Fields.nil, none, none, none⟩).success = true ∧
    (SrcApp.list_messages (some SrcApp.listingCheckpointer) SrcApp.mkOk
        ⟨Fields.nil, none, none, none⟩).messages
      = [⟨Fields.nil⟩,
          ⟨Fields.cons "k" (Val.vStr "v") Fields.nil⟩].map
          SrcApp.MsgV.to_dict ∧
    (SrcApp.list_messages (some SrcApp.listingCheckpointer) SrcApp.mkOk
        ⟨Fields.nil, none, none, none⟩).total
      = (SrcApp.list_messages (some SrcApp.listingCheckpointer) SrcApp.mkOk
          ⟨Fields.nil, none, none, none⟩).messages.length ∧
    (SrcApp.list_messages (some SrcApp.listingCheckpointer) SrcApp.mkOk
        ⟨Fields.nil, none, none, none⟩).message
      = "Retrieved "
          ++ toString (SrcApp.list_messages (some SrcApp.listingCheckpointer)
              SrcApp.mkOk ⟨Fields.nil, none, none, none⟩).total
          ++ " messages" :=
  list_messages_total_is_page_length SrcApp.listingCheckpointer SrcApp.mkOk
    ⟨Fields.nil, none, none, none⟩ Fields.nil
    [⟨Fields.nil⟩, ⟨Fields.cons "k" (Val.vStr "v") Fields.nil⟩] rfl rfl
